import Mathlib

/-!
Shallow embedding of the janvaani data-aggregator service
(repository rugvedkadu06/aggrigator).

The repository holds iterations of one Express/Mongoose service.  The
authoritative iteration (second document of src/server.js) reads four source
collections (users, issues, flags, detections), runs an aggregation pipeline
producing one denormalized record per issue, and materializes the result into
the target collection 'agrigate' by deleteMany followed by a guarded
insertMany.  The first document of src/server.js is the live-listing
pipeline (/api/all-data) over an issue schema with an embedded detection
subdocument.

ObjectIds are modelled as Nat, timestamps as Nat, floating-point geo
coordinates as exact rationals (the pipeline only carries them through),
nullable / possibly-missing fields as Option.  A document store collection is
a list in insertion order; collections are addressed by name, so the source
store carries both a collection named flags (where the Flag model reads and
writes) and one named flogs (the name used by the materialize pipeline's
lookup stage).
-/

namespace Aggrigator

/-- User record (UserSchema in src/server.js, source DB). -/
structure User where
  id : Nat
  name : String
  email : String
  phone : String
  points : Nat
  faceImageUrl : String
deriving DecidableEq, Repr

/-- Geo coordinate pair on an Issue (coordinates subdocument). -/
structure Coordinates where
  latitude : Rat
  longitude : Rat
deriving DecidableEq, Repr

/-- Issue record (IssueSchema in src/server.js, materialize iteration:
detections live in a separate collection, not embedded). -/
structure Issue where
  id : Nat
  userId : Nat
  title : String
  description : String
  location : String
  coordinates : Coordinates
  status : String
  imageUrl : String
  submittedBy : String
  redFlags : Nat
  greenFlags : Nat
  createdAt : Nat
  updatedAt : Nat
deriving DecidableEq, Repr

/-- Flag record (FlagSchema in src/server.js). -/
structure Flag where
  id : Nat
  issueId : Nat
  userId : Nat
  userName : String
  userEmail : String
  type : String
  reason : Option String
  createdAt : Nat
deriving DecidableEq, Repr

/-- Detection record (DetectionSchema in src/server.js, collection
'detections', linked to an Issue via issueId). -/
structure Detection where
  id : Nat
  issueId : Nat
  annotatedImageUrl : Option String
  detections : List String
  createdAt : Nat
deriving DecidableEq, Repr

/-- The source document store, collections addressed by name.  The Flag
model (sourceDB.model "Flag") binds to the collection named flags, which is
what Flag.find reads; the materialize pipeline's lookup stage instead names
the collection flogs, so both names are carried. -/
structure SourceStore where
  users : List User
  issues : List Issue
  flags : List Flag
  flogs : List Flag
  detections : List Detection
deriving DecidableEq, Repr

/-- submittedUser subdocument of the materialized record: every path is
written from the unwound user document, so every field is missing (none)
when the issue's user lookup matched nothing. -/
structure SubmittedUser where
  sourceUserId : Option Nat
  name : Option String
  email : Option String
  phone : Option String
  points : Option Nat
  faceImageUrl : Option String
deriving DecidableEq, Repr

/-- One element of the materialized record's issueFlags array (the $map
stage over the looked-up flag documents). -/
structure IssueFlagView where
  sourceFlagId : Nat
  userId : Nat
  userName : String
  userEmail : String
  type : String
  reason : Option String
  createdAt : Nat
deriving DecidableEq, Repr

/-- AggregatedIssue: the output document of the materialize pipeline's
$project stage (AggregatedIssueSchema, collection 'agrigate').
detections / annotatedImageUrl / detectedAt come from $arrayElemAt over the
looked-up detection documents and are therefore missing (none) when no
detection document matched. -/
structure AggregatedIssue where
  id : Nat
  sourceIssueId : Nat
  title : String
  description : String
  location : String
  coordinates : Coordinates
  status : String
  imageUrl : String
  submittedBy : String
  redFlags : Nat
  greenFlags : Nat
  createdAt : Nat
  updatedAt : Nat
  annotatedImageUrl : Option String
  detections : Option (List String)
  detectedAt : Option Nat
  submittedUser : SubmittedUser
  issueFlags : List IssueFlagView
deriving DecidableEq, Repr

/-- Insertion (descending by key): an element is placed after every
already-present element whose key is at least as large. -/
def insertDescBy {α : Type} (key : α → Nat) (x : α) : List α → List α
  | [] => [x]
  | y :: ys => if key x ≤ key y then y :: insertDescBy key x ys else x :: y :: ys

/-- Insertion sort, descending by key: the $sort createdAt -1 stage.  The
result is deterministic in the input order; elements with equal keys end up
in reversed input order (MongoDB specifies no order for sort ties, so any
fixed linearization is faithful, and no theorem below compares tie
orders). -/
def sortDescBy {α : Type} (key : α → Nat) : List α → List α
  | [] => []
  | x :: xs => insertDescBy key x (sortDescBy key xs)

/-- The $lookup from 'users' on _id followed by $unwind with
preserveNullAndEmptyArrays: the first user whose _id equals the issue's
userId, or none. -/
def lookupUser (users : List User) (uid : Nat) : Option User :=
  (users.filter (fun u => u.id == uid)).head?

/-- One issue through the materialize pipeline's lookup, unwind and $project
stages (fetchAggregateAndSaveData in src/server.js).  Note: the flags lookup
reads the collection named flogs; imageUrl is projected through unchanged
(imageUrl: 1); the detection fields take the first element of the looked-up
detection array and are missing when that array is empty. -/
def composeIssue (s : SourceStore) (i : Issue) : AggregatedIssue :=
  let u := lookupUser s.users i.userId
  let fl := s.flogs.filter (fun f => f.issueId == i.id)
  let dd := s.detections.filter (fun d => d.issueId == i.id)
  { id := i.id
    sourceIssueId := i.id
    title := i.title
    description := i.description
    location := i.location
    coordinates := i.coordinates
    status := i.status
    imageUrl := i.imageUrl
    submittedBy := i.submittedBy
    redFlags := i.redFlags
    greenFlags := i.greenFlags
    createdAt := i.createdAt
    updatedAt := i.updatedAt
    annotatedImageUrl := (dd.filterMap (fun d => d.annotatedImageUrl)).head?
    detections := (dd.map (fun d => d.detections)).head?
    detectedAt := (dd.map (fun d => d.createdAt)).head?
    submittedUser :=
      { sourceUserId := u.map (fun x => x.id)
        name := u.map (fun x => x.name)
        email := u.map (fun x => x.email)
        phone := u.map (fun x => x.phone)
        points := u.map (fun x => x.points)
        faceImageUrl := u.map (fun x => x.faceImageUrl) }
    issueFlags := fl.map (fun f =>
      { sourceFlagId := f.id
        userId := f.userId
        userName := f.userName
        userEmail := f.userEmail
        type := f.type
        reason := f.reason
        createdAt := f.createdAt }) }

/-- The full materialize aggregation: every issue through the pipeline,
sorted newest first (the $sort createdAt -1 final stage). -/
def issuesToSave (s : SourceStore) : List AggregatedIssue :=
  sortDescBy (fun v => v.createdAt) (s.issues.map (composeIssue s))

/-- The target store: the single collection 'agrigate' owned by the
materializer. -/
structure TargetStore where
  agrigate : List AggregatedIssue
deriving DecidableEq, Repr

/-- The metadata summary assembled by fetchAggregateAndSaveData and returned
through /api/sync.  totalFlags counts the collection named flags (Flag.find),
not the collection the lookup stage joined. -/
structure Metadata where
  totalIssues : Nat
  totalUsers : Nat
  totalFlags : Nat
deriving DecidableEq, Repr

/-- Metadata of one run over source s. -/
def runMetadata (s : SourceStore) : Metadata :=
  { totalIssues := (issuesToSave s).length
    totalUsers := s.users.length
    totalFlags := s.flags.length }

/-- The two store writes a sync run performs on the target collection. -/
inductive SyncOp
  | deleteAll
  | insertAll
deriving DecidableEq, Repr

/-- Effect of one write on the target store: deleteMany with an empty filter
clears the collection; insertMany appends the run's documents. -/
def applyOp (s : SourceStore) : TargetStore → SyncOp → TargetStore
  | _, SyncOp.deleteAll => { agrigate := [] }
  | t, SyncOp.insertAll => { agrigate := t.agrigate ++ issuesToSave s }

/-- The write sequence of one run: deleteMany always runs; insertMany only
when there is at least one document (the issuesToSave.length > 0 guard). -/
def syncOps (s : SourceStore) : List SyncOp :=
  if (issuesToSave s).length > 0 then [SyncOp.deleteAll, SyncOp.insertAll]
  else [SyncOp.deleteAll]

/-- One successful sync run: applies the write sequence to the target store
and returns the new store together with the run metadata. -/
def fetchAggregateAndSaveData (s : SourceStore) (t : TargetStore) :
    TargetStore × Metadata :=
  ((syncOps s).foldl (applyOp s) t, runMetadata s)

/-- The target states another consumer can observe while deleteMany runs:
MongoDB multi-document writes are not isolated, so the collection is seen
with zero or more documents already removed, one document at a time, down to
empty (documents removed in store order — one linearization of MongoDB's
unspecified deletion order). -/
def deleteStates (t : TargetStore) : List TargetStore :=
  (List.range (t.agrigate.length + 1)).map
    (fun k => { agrigate := t.agrigate.drop k })

/-- The target states another consumer can observe while the ordered
insertMany runs: the new snapshot's documents appear one at a time, from the
empty collection up to the complete snapshot. -/
def insertStates (s : SourceStore) : List TargetStore :=
  (List.range ((issuesToSave s).length + 1)).map
    (fun k => { agrigate := (issuesToSave s).take k })

/-- Every target-store state another consumer can observe during a sync run,
at per-document write granularity: the prior contents losing one document at
a time during deleteMany, then (when the guard runs insertMany at all) the
new snapshot growing one document at a time. -/
def syncTrace (s : SourceStore) (t : TargetStore) : List TargetStore :=
  deleteStates t ++
    if (issuesToSave s).length > 0 then insertStates s else []

/-- insertMany as an ordered document-by-document write with fault
injection: budget is the number of documents inserted before the store
raises; the Bool reports whether the whole batch went through.  Documents
written before the fault stay written (ordered insertMany does not roll
back). -/
def insertManyFaulty (budget : Nat) (acc : List AggregatedIssue) :
    List AggregatedIssue → List AggregatedIssue × Bool
  | [] => (acc, true)
  | d :: ds =>
    match budget with
    | 0 => (acc, false)
    | b + 1 => insertManyFaulty b (acc ++ [d]) ds

/-- The single consolidated error thrown by the catch block of
fetchAggregateAndSaveData and forwarded by the /api/sync handler. -/
def consolidatedError : String :=
  "Failed to fetch, aggregate, or save data to the target DB."

/-- A sync run whose insert phase may fail partway: deleteMany clears the
collection, then the guarded insertMany runs with a fault budget.  On
failure the catch block surfaces the consolidated error; the target keeps
whatever the faulty insert left behind. -/
def syncWithInsertFault (s : SourceStore) (_t : TargetStore) (budget : Nat) :
    TargetStore × Except String Metadata :=
  if (issuesToSave s).length > 0 then
    match insertManyFaulty budget [] (issuesToSave s) with
    | (coll, true) => ({ agrigate := coll }, Except.ok (runMetadata s))
    | (coll, false) => ({ agrigate := coll }, Except.error consolidatedError)
  else ({ agrigate := [] }, Except.ok (runMetadata s))

/-- Detection subdocument embedded in an issue (listing iteration of
src/server.js: DetectionSubSchema). -/
structure DetectionSub where
  annotatedImageUrl : Option String
  detections : List String
  detectedAt : Nat
deriving DecidableEq, Repr

/-- Issue record of the listing iteration: detection data embedded as an
optional subdocument. -/
structure IssueL where
  id : Nat
  userId : Nat
  title : String
  description : String
  location : String
  imageUrl : String
  submittedBy : String
  redFlags : Nat
  greenFlags : Nat
  status : String
  detection : Option DetectionSub
  createdAt : Nat
deriving DecidableEq, Repr

/-- Source store as seen by the listing pipeline (its flag lookup reads the
collection named flags, matching the Flag model). -/
structure ListingSource where
  users : List User
  issues : List IssueL
  flags : List Flag
deriving DecidableEq, Repr

/-- Output document of the listing pipeline's $project stage
(/api/all-data).  imageUrl is the $ifNull swap of the embedded detection's
annotatedImageUrl over the issue's own imageUrl; originalImageUrl preserves
the issue's own imageUrl; submittedBy and submittedByEmail come from the
unwound user lookup and are missing when it matched nothing. -/
structure ListedIssue where
  id : Nat
  title : String
  description : String
  location : String
  status : String
  redFlags : Nat
  greenFlags : Nat
  createdAt : Nat
  originalImageUrl : String
  imageUrl : String
  annotatedImageUrl : Option String
  detections : Option (List String)
  detectedAt : Option Nat
  submittedBy : Option String
  submittedByEmail : Option String
  flags : List Flag
deriving DecidableEq, Repr

/-- One issue through the listing pipeline's lookup, unwind and $project
stages.  $ifNull takes the annotated reference whenever it is present (any
present string, the empty string included), else the issue's own image. -/
def composeListed (s : ListingSource) (i : IssueL) : ListedIssue :=
  let u := lookupUser s.users i.userId
  let ann := i.detection.bind (fun d => d.annotatedImageUrl)
  { id := i.id
    title := i.title
    description := i.description
    location := i.location
    status := i.status
    redFlags := i.redFlags
    greenFlags := i.greenFlags
    createdAt := i.createdAt
    originalImageUrl := i.imageUrl
    imageUrl := ann.getD i.imageUrl
    annotatedImageUrl := ann
    detections := i.detection.map (fun d => d.detections)
    detectedAt := i.detection.map (fun d => d.detectedAt)
    submittedBy := u.map (fun x => x.name)
    submittedByEmail := u.map (fun x => x.email)
    flags := s.flags.filter (fun f => f.issueId == i.id) }

/-- The full listing aggregation (/api/all-data): every issue through the
pipeline, sorted newest first. -/
def issuesWithDetails (s : ListingSource) : List ListedIssue :=
  sortDescBy (fun v => v.createdAt) (s.issues.map (composeListed s))

/-! Concrete fixtures used by witnesses and counterexamples. -/

/-- A blank user record to build fixtures from. -/
def user0 : User :=
  { id := 0, name := "", email := "", phone := "", points := 0, faceImageUrl := "" }

/-- A blank issue record (materialize schema) to build fixtures from. -/
def issue0 : Issue :=
  { id := 0, userId := 0, title := "", description := "", location := ""
    coordinates := { latitude := 0, longitude := 0 }, status := ""
    imageUrl := "", submittedBy := "", redFlags := 0, greenFlags := 0
    createdAt := 0, updatedAt := 0 }

/-- A blank issue record (listing schema, no embedded detection) to build
fixtures from. -/
def issueL0 : IssueL :=
  { id := 0, userId := 0, title := "", description := "", location := ""
    imageUrl := "", submittedBy := "", redFlags := 0, greenFlags := 0
    status := "", detection := none, createdAt := 0 }

/-- A blank flag record to build fixtures from. -/
def flag0 : Flag :=
  { id := 0, issueId := 0, userId := 0, userName := "", userEmail := ""
    type := "", reason := none, createdAt := 0 }

/-- An issue with its own image, whose detection carries a non-empty
annotated image. -/
def issueAnn : Issue :=
  { issue0 with id := 1, imageUrl := "orig.jpg", createdAt := 1 }

/-- Source with one issue carrying a non-empty annotated detection image. -/
def srcAnnotated : SourceStore :=
  { users := []
    issues := [issueAnn]
    flags := [], flogs := []
    detections := [{ id := 1, issueId := 1, annotatedImageUrl := some "ann.jpg",
                     detections := ["pothole"], createdAt := 2 }] }

/-- An embedded detection subdocument with a non-empty annotated image. -/
def detSubAnn : DetectionSub :=
  { annotatedImageUrl := some "ann.jpg", detections := ["pothole"], detectedAt := 2 }

/-- A listing issue embedding an annotated detection. -/
def issueLAnn : IssueL :=
  { issueL0 with id := 1, imageUrl := "orig.jpg", createdAt := 1, detection := some detSubAnn }

/-- Listing source with one issue carrying an embedded annotated detection. -/
def lsrcAnnotated : ListingSource :=
  { users := [], issues := [issueLAnn], flags := [] }

/-- Source with one issue and one matching flag stored in the collection
named flags, while the collection named flogs is empty. -/
def srcFlagged : SourceStore :=
  { users := []
    issues := [{ issue0 with id := 1 }]
    flags := [{ flag0 with id := 1, issueId := 1, type := "red" }]
    flogs := [], detections := [] }

/-- Listing source with the same issue and matching flag. -/
def lsrcFlagged : ListingSource :=
  { users := []
    issues := [{ issueL0 with id := 1 }]
    flags := [{ flag0 with id := 1, issueId := 1, type := "red" }] }

/-- Source of an earlier sync run, used to populate a prior target store. -/
def srcPrev : SourceStore :=
  { users := [], issues := [{ issue0 with id := 100, createdAt := 50 }]
    flags := [], flogs := [], detections := [] }

/-- A target store holding the snapshot of an earlier run. -/
def tgtPrev : TargetStore := { agrigate := issuesToSave srcPrev }

/-- Source of the current run: one fresh issue. -/
def srcCurrent : SourceStore :=
  { users := [], issues := [{ issue0 with id := 1, createdAt := 60 }]
    flags := [], flogs := [], detections := [] }

/-- An issue whose reporter reference matches no user. -/
def issueOrphan : Issue := { issue0 with id := 2, userId := 9 }

/-- Source with one issue whose reporter reference matches no user. -/
def srcOrphan : SourceStore :=
  { users := [], issues := [issueOrphan]
    flags := [], flogs := [], detections := [] }

/-- A listing issue whose reporter reference matches no user. -/
def issueLOrphan : IssueL := { issueL0 with id := 2, userId := 9 }

/-- Listing source with one issue whose reporter reference matches no user. -/
def lsrcOrphan : ListingSource :=
  { users := [], issues := [issueLOrphan], flags := [] }

/-- An issue with no matching detection record. -/
def issueNoDet : Issue := { issue0 with id := 3, imageUrl := "own.jpg" }

/-- Source with one issue and no detection records at all. -/
def srcNoDet : SourceStore :=
  { users := [], issues := [issueNoDet]
    flags := [], flogs := [], detections := [] }

/-- A listing issue without an embedded detection. -/
def issueLNoDet : IssueL := { issueL0 with id := 3, imageUrl := "own.jpg" }

/-- Listing source with one issue without an embedded detection. -/
def lsrcNoDet : ListingSource :=
  { users := [], issues := [issueLNoDet], flags := [] }

/-- A user record after an external rename. -/
def userNew : User := { user0 with id := 7, name := "New Name", email := "new@x" }

/-- An issue whose cached submitter name predates the user's rename. -/
def issueRenamed : Issue :=
  { issue0 with id := 4, userId := 7, submittedBy := "Old Name" }

/-- Source where the issue's cached submitter name differs from the live
user's current name. -/
def srcRenamed : SourceStore :=
  { users := [userNew]
    issues := [issueRenamed]
    flags := [], flogs := [], detections := [] }

/-- A listing issue whose cached submitter name predates the user's rename. -/
def issueLRenamed : IssueL :=
  { issueL0 with id := 4, userId := 7, submittedBy := "Old Name" }

/-- Listing source with the same renamed user. -/
def lsrcRenamed : ListingSource :=
  { users := [userNew], issues := [issueLRenamed], flags := [] }

/-- Source with two issues, used to fail the insert phase partway. -/
def srcTwo : SourceStore :=
  { users := []
    issues := [{ issue0 with id := 5, createdAt := 2 },
               { issue0 with id := 6, createdAt := 1 }]
    flags := [], flogs := [], detections := [] }

/-- Source with no issues but some users and flags. -/
def srcNoIssues : SourceStore :=
  { users := [user0], issues := [], flags := [flag0], flogs := []
    detections := [] }

/-- The empty target store. -/
def tgt0 : TargetStore := { agrigate := [] }

/-! Shared helper lemmas about the embedding. -/

/-- Membership through stable descending insertion. -/
theorem mem_insertDescBy {α : Type} (key : α → Nat) (x a : α) (l : List α) :
    a ∈ insertDescBy key x l ↔ a = x ∨ a ∈ l := by
  induction l with
  | nil => simp [insertDescBy]
  | cons y ys ih =>
    simp only [insertDescBy]
    split
    · simp only [List.mem_cons, ih]
      tauto
    · simp only [List.mem_cons]

/-- The descending sort is a permutation as far as membership goes. -/
theorem mem_sortDescBy {α : Type} (key : α → Nat) (a : α) (l : List α) :
    a ∈ sortDescBy key l ↔ a ∈ l := by
  induction l with
  | nil => simp [sortDescBy]
  | cons x xs ih =>
    simp only [sortDescBy, mem_insertDescBy, List.mem_cons, ih]

/-- Every issue of the source yields its composed record in the materialize
pipeline's output. -/
theorem composeIssue_mem {s : SourceStore} {i : Issue} (h : i ∈ s.issues) :
    composeIssue s i ∈ issuesToSave s := by
  unfold issuesToSave
  rw [mem_sortDescBy]
  exact List.mem_map_of_mem _ h

/-- Every issue of the listing source yields its composed record in the
listing pipeline's output. -/
theorem composeListed_mem {s : ListingSource} {i : IssueL} (h : i ∈ s.issues) :
    composeListed s i ∈ issuesWithDetails s := by
  unfold issuesWithDetails
  rw [mem_sortDescBy]
  exact List.mem_map_of_mem _ h

/-- A successful sync run replaces the target collection with exactly the
run's documents (the guard on insertMany does not change the outcome, since
a skipped insert leaves the cleared collection equal to the empty document
list) and returns the run metadata. -/
theorem fetchAggregateAndSaveData_eq (s : SourceStore) (t : TargetStore) :
    fetchAggregateAndSaveData s t = ({ agrigate := issuesToSave s }, runMetadata s) := by
  unfold fetchAggregateAndSaveData syncOps
  by_cases h : (issuesToSave s).length > 0
  · rw [if_pos h]
    simp [List.foldl, applyOp]
  · rw [if_neg h]
    have h0 : issuesToSave s = [] := List.length_eq_zero.mp (Nat.eq_zero_of_not_pos h)
    simp [List.foldl, applyOp, h0]

/-- An ordered insert that faults after k documents leaves exactly the first
k documents written. -/
theorem insertManyFaulty_fail (docs : List AggregatedIssue) :
    ∀ (k : Nat) (acc : List AggregatedIssue), k < docs.length →
      insertManyFaulty k acc docs = (acc ++ docs.take k, false) := by
  induction docs with
  | nil =>
    intro k acc h
    simp at h
  | cons d ds ih =>
    intro k acc h
    cases k with
    | zero => simp [insertManyFaulty]
    | succ b =>
      have hb : b < ds.length := Nat.lt_of_succ_lt_succ h
      simp only [insertManyFaulty]
      rw [ih b (acc ++ [d]) hb]
      simp [List.take_succ_cons]

/-! Claim theorems. -/

/-- C1: after a successful materialization run the target collection
agrigate contains exactly the composite records produced by that run and
nothing else, whatever the collection held before — in particular all prior
records (fifty of them or any other number) are gone. -/
theorem full_replacement_snapshot (s : SourceStore) (t : TargetStore) :
    (fetchAggregateAndSaveData s t).1.agrigate = issuesToSave s := by
  rw [fetchAggregateAndSaveData_eq]

/-- C8: the join-and-materialize run is deterministic and idempotent — its
outcome (composite records, their field values and order, and the metadata)
does not depend on the prior target-store state, and a second run over
unchanged source data produces the identical outcome and leaves the target
collection unchanged. -/
theorem join_deterministic_idempotent (s : SourceStore) (t1 t2 : TargetStore) :
    fetchAggregateAndSaveData s t1 = fetchAggregateAndSaveData s t2
      ∧ fetchAggregateAndSaveData s (fetchAggregateAndSaveData s t1).1 =
          fetchAggregateAndSaveData s t1 := by
  simp [fetchAggregateAndSaveData_eq]

/-- C10: with zero source Reports a sync run still succeeds: the pipeline
output is empty, the write sequence is the clear step alone (the insert
phase is skipped entirely), the target collection ends fully empty, and the
run reports a record count of zero. -/
theorem empty_source_sync (s : SourceStore) (t : TargetStore) (h : s.issues = []) :
    issuesToSave s = []
      ∧ syncOps s = [SyncOp.deleteAll]
      ∧ fetchAggregateAndSaveData s t =
          ({ agrigate := [] },
           { totalIssues := 0, totalUsers := s.users.length,
             totalFlags := s.flags.length }) := by
  have h0 : issuesToSave s = [] := by simp [issuesToSave, h, sortDescBy]
  refine ⟨h0, ?_, ?_⟩
  · simp [syncOps, h0]
  · rw [fetchAggregateAndSaveData_eq]
    simp [runMetadata, h0]

/-- C10 witness: a concrete source with users and flags but no issues. -/
theorem empty_source_sync_witness :
    issuesToSave srcNoIssues = []
      ∧ syncOps srcNoIssues = [SyncOp.deleteAll]
      ∧ fetchAggregateAndSaveData srcNoIssues tgtPrev =
          ({ agrigate := [] }, { totalIssues := 0, totalUsers := 1, totalFlags := 1 }) :=
  empty_source_sync srcNoIssues tgtPrev rfl

/-- C3: the claim that every composite view's flag collection length equals
the number of matching Flag records fails for the materialize pipeline: its
lookup stage reads the collection named flogs, while the Flag model of the
same file stores and reads Flag records in the collection named flags (the
run's own totalFlags metadata counts that collection).  With one matching
Flag record in flags and nothing in flogs, the materialized composite
carries zero flags, while the listing pipeline — whose lookup reads flags —
carries one. -/
theorem flag_lookup_collection_mismatch :
    (issuesToSave srcFlagged).map (fun v => v.issueFlags.length) = [0]
      ∧ (srcFlagged.flags.filter (fun f => f.issueId == 1)).length = 1
      ∧ (issuesWithDetails lsrcFlagged).map (fun v => v.flags.length) = [1] :=
  ⟨rfl, rfl, rfl⟩

/-- C4 counterexample: the delete-then-insert sync exposes externally
visible target states that are empty and partially written.  With a nonempty
prior snapshot and a nonempty current run, the empty collection is visible
yet equals neither the complete previous snapshot nor the complete new one;
and with two current Reports, a state holding just one of the two new
records — partially written, neither snapshot and not even empty — is
visible too.  This refutes the claim that no such intermediate state is ever
observable. -/
theorem delete_insert_window_cex :
    ({ agrigate := [] } : TargetStore) ∈ syncTrace srcCurrent tgtPrev
      ∧ tgtPrev.agrigate ≠ []
      ∧ issuesToSave srcCurrent ≠ []
      ∧ tgtPrev.agrigate ≠ issuesToSave srcCurrent
      ∧ ({ agrigate := (issuesToSave srcTwo).take 1 } : TargetStore) ∈ syncTrace srcTwo tgt0
      ∧ (issuesToSave srcTwo).take 1 ≠ []
      ∧ (issuesToSave srcTwo).take 1 ≠ issuesToSave srcTwo := by
  decide

/-- C4 amended: a sync run does expose externally visible windows in which
the target collection is empty or partially written (counterexample above):
at per-document write granularity its visible states run from the full
previous snapshot down to empty during deleteMany and from empty up to the
full new snapshot during insertMany.  All that holds is that every
externally visible state is the previous snapshot with zero or more
documents already deleted (a sublist of it) or the new snapshot with zero or
more documents already inserted (a prefix of it). -/
theorem sync_visible_states (s : SourceStore) (t : TargetStore) (x : TargetStore)
    (hx : x ∈ syncTrace s t) :
    List.Sublist x.agrigate t.agrigate ∨ x.agrigate <+: issuesToSave s := by
  unfold syncTrace at hx
  rcases List.mem_append.mp hx with h | h
  · left
    unfold deleteStates at h
    rcases List.mem_map.mp h with ⟨k, _, rfl⟩
    exact List.drop_sublist k t.agrigate
  · right
    by_cases hc : (issuesToSave s).length > 0
    · rw [if_pos hc] at h
      unfold insertStates at h
      rcases List.mem_map.mp h with ⟨k, _, rfl⟩
      exact List.take_prefix k (issuesToSave s)
    · rw [if_neg hc] at h
      simp at h

/-- C4 witness: a partially inserted visible state of a concrete run is a
prefix of the new snapshot (or a sublist of the empty prior one). -/
theorem sync_visible_states_witness :
    List.Sublist ((issuesToSave srcTwo).take 1) tgt0.agrigate
      ∨ (issuesToSave srcTwo).take 1 <+: issuesToSave srcTwo :=
  sync_visible_states srcTwo tgt0 { agrigate := (issuesToSave srcTwo).take 1 } (by decide)

/-- C2 counterexample: in the materialize pipeline a Detection is selected
whose annotated-image reference "ann.jpg" is non-empty, yet the composite's
display image field still holds the Report's own image "orig.jpg" — that
projection passes imageUrl through unchanged and has no separate
original-image field — refuting the claimed swap for this composite view. -/
theorem display_image_claim_cex :
    (issuesToSave srcAnnotated).map (fun v => (v.imageUrl, v.annotatedImageUrl)) =
        [("orig.jpg", some "ann.jpg")]
      ∧ "orig.jpg" ≠ "ann.jpg" :=
  ⟨rfl, by decide⟩

/-- C2 amended: the image swap happens only in the listing pipeline, and it
keys on presence rather than non-emptiness: the listed view's display image
equals its annotated reference whenever one is present (an empty string
included), otherwise its original image, and the Report's own image is
preserved unchanged in originalImageUrl; the materialize pipeline instead
always keeps the Report's own image in imageUrl and stores the annotated
reference only in the separate annotatedImageUrl field. -/
theorem display_image_resolution (sL : ListingSource) (i : IssueL)
    (hiL : i ∈ sL.issues) (sM : SourceStore) (j : Issue) (hj : j ∈ sM.issues) :
    (composeListed sL i).originalImageUrl = i.imageUrl
      ∧ (composeListed sL i).imageUrl =
          ((composeListed sL i).annotatedImageUrl).getD
            ((composeListed sL i).originalImageUrl)
      ∧ (composeIssue sM j).imageUrl = j.imageUrl
      ∧ composeListed sL i ∈ issuesWithDetails sL
      ∧ composeIssue sM j ∈ issuesToSave sM :=
  ⟨rfl, rfl, rfl, composeListed_mem hiL, composeIssue_mem hj⟩

/-- C2 witness: the amended resolution at the concrete annotated fixtures. -/
theorem display_image_resolution_witness :
    (composeListed lsrcAnnotated issueLAnn).originalImageUrl = issueLAnn.imageUrl
      ∧ (composeListed lsrcAnnotated issueLAnn).imageUrl =
          ((composeListed lsrcAnnotated issueLAnn).annotatedImageUrl).getD
            ((composeListed lsrcAnnotated issueLAnn).originalImageUrl)
      ∧ (composeIssue srcAnnotated issueAnn).imageUrl = issueAnn.imageUrl
      ∧ composeListed lsrcAnnotated issueLAnn ∈ issuesWithDetails lsrcAnnotated
      ∧ composeIssue srcAnnotated issueAnn ∈ issuesToSave srcAnnotated :=
  display_image_resolution lsrcAnnotated issueLAnn (by decide)
    srcAnnotated issueAnn (by decide)

/-- C5: a Report whose Reporter reference matches no Reporter record still
yields a composite view in both pipelines (no error is raised), and every
Reporter-derived field of it is null: the listing view's submittedBy and
submittedByEmail are none, and every field of the materialized view's
submittedUser subdocument is none. -/
theorem missing_reporter_yields_null (sL : ListingSource) (i : IssueL)
    (hiL : i ∈ sL.issues) (huL : sL.users.filter (fun u => u.id == i.userId) = [])
    (sM : SourceStore) (j : Issue)
    (hj : j ∈ sM.issues) (huM : sM.users.filter (fun u => u.id == j.userId) = []) :
    composeListed sL i ∈ issuesWithDetails sL
      ∧ (composeListed sL i).submittedBy = none
      ∧ (composeListed sL i).submittedByEmail = none
      ∧ composeIssue sM j ∈ issuesToSave sM
      ∧ (composeIssue sM j).submittedUser =
          { sourceUserId := none, name := none, email := none, phone := none,
            points := none, faceImageUrl := none } := by
  have hL : lookupUser sL.users i.userId = none := by simp [lookupUser, huL]
  have hM : lookupUser sM.users j.userId = none := by simp [lookupUser, huM]
  refine ⟨composeListed_mem hiL, ?_, ?_, composeIssue_mem hj, ?_⟩
  · simp [composeListed, hL]
  · simp [composeListed, hL]
  · simp [composeIssue, hM]

/-- C5 witness: the orphan fixtures, whose reporter reference 9 matches no
user. -/
theorem missing_reporter_yields_null_witness :
    composeListed lsrcOrphan issueLOrphan ∈ issuesWithDetails lsrcOrphan
      ∧ (composeListed lsrcOrphan issueLOrphan).submittedBy = none
      ∧ (composeListed lsrcOrphan issueLOrphan).submittedByEmail = none
      ∧ composeIssue srcOrphan issueOrphan ∈ issuesToSave srcOrphan
      ∧ (composeIssue srcOrphan issueOrphan).submittedUser =
          { sourceUserId := none, name := none, email := none, phone := none,
            points := none, faceImageUrl := none } :=
  missing_reporter_yields_null lsrcOrphan issueLOrphan (by decide) rfl
    srcOrphan issueOrphan (by decide) rfl

/-- C6 counterexample: with no matching Detection the composite view's
detected-object collection is absent (none), not the claimed empty
collection: the listing projection follows a path into a missing embedded
subdocument and the materialize projection takes the first element of an
empty lookup array, and an absent field is not an empty collection. -/
theorem empty_detection_collection_cex :
    (issuesWithDetails lsrcNoDet).map (fun v => v.detections) = [none]
      ∧ (issuesToSave srcNoDet).map (fun v => v.detections) = [none]
      ∧ (none : Option (List String)) ≠ some [] :=
  ⟨rfl, rfl, by decide⟩

/-- C6 amended: for a Report with no matching Detection the composite view's
detected-object field is absent (none) in both pipelines — so a consumer
cannot iterate it unconditionally — and the other detection-derived fields
are likewise absent, while the listing view's display image falls back to
the Report's own image. -/
theorem no_detection_fields_absent (sL : ListingSource) (i : IssueL)
    (hiL : i ∈ sL.issues) (hdL : i.detection = none)
    (sM : SourceStore) (j : Issue) (hj : j ∈ sM.issues)
    (hdM : sM.detections.filter (fun d => d.issueId == j.id) = []) :
    (composeListed sL i).detections = none
      ∧ (composeListed sL i).annotatedImageUrl = none
      ∧ (composeListed sL i).imageUrl = i.imageUrl
      ∧ (composeIssue sM j).detections = none
      ∧ (composeIssue sM j).annotatedImageUrl = none
      ∧ (composeIssue sM j).detectedAt = none
      ∧ composeListed sL i ∈ issuesWithDetails sL
      ∧ composeIssue sM j ∈ issuesToSave sM := by
  refine ⟨?_, ?_, ?_, ?_, ?_, ?_, composeListed_mem hiL, composeIssue_mem hj⟩
  · simp [composeListed, hdL]
  · simp [composeListed, hdL]
  · simp [composeListed, hdL]
  · simp [composeIssue, hdM]
  · simp [composeIssue, hdM]
  · simp [composeIssue, hdM]

/-- C6 witness: the detection-free fixtures. -/
theorem no_detection_fields_absent_witness :
    (composeListed lsrcNoDet issueLNoDet).detections = none
      ∧ (composeListed lsrcNoDet issueLNoDet).annotatedImageUrl = none
      ∧ (composeListed lsrcNoDet issueLNoDet).imageUrl = issueLNoDet.imageUrl
      ∧ (composeIssue srcNoDet issueNoDet).detections = none
      ∧ (composeIssue srcNoDet issueNoDet).annotatedImageUrl = none
      ∧ (composeIssue srcNoDet issueNoDet).detectedAt = none
      ∧ composeListed lsrcNoDet issueLNoDet ∈ issuesWithDetails lsrcNoDet
      ∧ composeIssue srcNoDet issueNoDet ∈ issuesToSave srcNoDet :=
  no_detection_fields_absent lsrcNoDet issueLNoDet (by decide) rfl
    srcNoDet issueNoDet (by decide) rfl

/-- C7 counterexample: the user was renamed to "New Name" but the
materialized composite's submitter display name field still shows the
Report's cached "Old Name"; the live value is only in the separate
submittedUser subdocument — refuting the claim for this composite view. -/
theorem live_submitter_claim_cex :
    (issuesToSave srcRenamed).map (fun v => (v.submittedBy, v.submittedUser.name)) =
        [("Old Name", some "New Name")]
      ∧ "Old Name" ≠ "New Name" :=
  ⟨rfl, by decide⟩

/-- C7 amended: only the listing view's submitter display name and contact
come from the live Reporter lookup; the materialized view preserves the
Report's cached submittedBy unchanged and carries the live Reporter's name,
email and phone in the separate submittedUser subdocument. -/
theorem submitter_resolution (sL : ListingSource) (i : IssueL) (u : User)
    (hiL : i ∈ sL.issues) (huL : lookupUser sL.users i.userId = some u)
    (sM : SourceStore) (j : Issue) (w : User)
    (hj : j ∈ sM.issues) (huM : lookupUser sM.users j.userId = some w) :
    (composeListed sL i).submittedBy = some u.name
      ∧ (composeListed sL i).submittedByEmail = some u.email
      ∧ (composeIssue sM j).submittedBy = j.submittedBy
      ∧ (composeIssue sM j).submittedUser.name = some w.name
      ∧ (composeIssue sM j).submittedUser.email = some w.email
      ∧ (composeIssue sM j).submittedUser.phone = some w.phone
      ∧ composeListed sL i ∈ issuesWithDetails sL
      ∧ composeIssue sM j ∈ issuesToSave sM := by
  refine ⟨?_, ?_, rfl, ?_, ?_, ?_, composeListed_mem hiL, composeIssue_mem hj⟩
  · simp [composeListed, huL]
  · simp [composeListed, huL]
  · simp [composeIssue, huM]
  · simp [composeIssue, huM]
  · simp [composeIssue, huM]

/-- C7 witness: the renamed-user fixtures. -/
theorem submitter_resolution_witness :
    (composeListed lsrcRenamed issueLRenamed).submittedBy = some userNew.name
      ∧ (composeListed lsrcRenamed issueLRenamed).submittedByEmail = some userNew.email
      ∧ (composeIssue srcRenamed issueRenamed).submittedBy = issueRenamed.submittedBy
      ∧ (composeIssue srcRenamed issueRenamed).submittedUser.name = some userNew.name
      ∧ (composeIssue srcRenamed issueRenamed).submittedUser.email = some userNew.email
      ∧ (composeIssue srcRenamed issueRenamed).submittedUser.phone = some userNew.phone
      ∧ composeListed lsrcRenamed issueLRenamed ∈ issuesWithDetails lsrcRenamed
      ∧ composeIssue srcRenamed issueRenamed ∈ issuesToSave srcRenamed :=
  submitter_resolution lsrcRenamed issueLRenamed userNew (by decide) rfl
    srcRenamed issueRenamed userNew (by decide) rfl

/-- C9 counterexample: a run over two Reports whose insert phase fails after
the first document surfaces the single consolidated error, yet leaves the
target collection holding one of the two new records — a partial subset of
the new snapshot — refuting the no-partial-materialization half of the
claim. -/
theorem partial_materialization_cex :
    (syncWithInsertFault srcTwo tgt0 1).2 = Except.error consolidatedError
      ∧ ((syncWithInsertFault srcTwo tgt0 1).1.agrigate).length = 1
      ∧ (issuesToSave srcTwo).length = 2
      ∧ (syncWithInsertFault srcTwo tgt0 1).1.agrigate = (issuesToSave srcTwo).take 1 :=
  ⟨rfl, rfl, rfl, rfl⟩

/-- C9 amended: on an insert-phase failure the operation does surface the
single consolidated error, but the target collection is left holding exactly
the first k documents of the new snapshot (the collection was cleared
first), a partial subset whenever 0 < k < n. -/
theorem sync_insert_fault_partial (s : SourceStore) (t : TargetStore) (k : Nat)
    (h : k < (issuesToSave s).length) :
    syncWithInsertFault s t k =
      ({ agrigate := (issuesToSave s).take k }, Except.error consolidatedError) := by
  unfold syncWithInsertFault
  rw [if_pos (Nat.lt_of_le_of_lt (Nat.zero_le k) h)]
  rw [insertManyFaulty_fail _ k [] h]
  simp

/-- C9 witness: the two-Report fixture failing after one insert. -/
theorem sync_insert_fault_partial_witness :
    syncWithInsertFault srcTwo tgt0 1 =
      ({ agrigate := (issuesToSave srcTwo).take 1 }, Except.error consolidatedError) :=
  sync_insert_fault_partial srcTwo tgt0 1 (by decide)

end Aggrigator
